import Mathlib

/-!
Shallow embedding of the request-dispatch core of the rocketchat push
gateway (Go sources: `main.go` split across `apns.go`, `fcm.go`, the main
request/forward file and the stats/breaker file), together with theorems
settling the behavioural claims about it.

Conventions of the embedding:
* Go strings and `[]byte` are Lean `String`s; a nil byte slice is `none`
  in an `Option String`.
* Go `time.Time` instants are `Nat` (nanoseconds); `time.Hour` is the
  constant `disabledDelay`.
* The `atomic.Pointer[time.Time]` field `disabledUntil` is modelled as
  `Option (Nat × Nat)`: a stored pointer carries a tag (pointer identity,
  every `disable` allocates a fresh one) and the expiry instant, so that
  `CompareAndSwap` can be modelled faithfully as comparison of pointer
  identity rather than of the pointed-to time value.
* Network effects (the upstream `http.DefaultClient.Do`, the APNs
  `client.Push`, the FCM `client.Send`) are inputs to the embedded
  functions: the caller supplies the outcome the collaborator would
  return, and the embedding records whether that collaborator was
  invoked at all.
-/

namespace RCPG

/-- Reserved topic of the foreign-platform upstream (constant `apnsUpstreamTopic`). -/
def apnsUpstreamTopic : String := "chat.rocket.ios"

/-- Fixed upstream relay host (constant `upstreamGateway`). -/
def upstreamGateway : String := "gateway.rocket.chat"

/-- Sender metadata inside `RCPayload` (anonymous struct in Go). -/
structure RCSender where
  ID : String
  Username : String
  Name : String
  deriving Repr, DecidableEq

/-- The nested application payload (`RCPayload` in Go). -/
structure RCPayload where
  Host : String
  MessageID : String
  NotificationType : String
  Rid : String
  Sender : Option RCSender
  SenderName : String
  Type' : String
  deriving Repr, DecidableEq

/-- APNs-specific options (anonymous `Apn` struct in Go). -/
structure RCApn where
  Category : String
  Text : String
  deriving Repr, DecidableEq

/-- FCM-specific options (anonymous `Gcm` struct in Go). -/
structure RCGcm where
  Image : String
  Style : String
  deriving Repr, DecidableEq

/-- The `Options` member of `RCPushNotification`. -/
structure RCOptions where
  CreatedAt : String
  CreatedBy : String
  Sent : Bool
  Sending : Int
  From : String
  Title : String
  Text : String
  UserID : String
  Payload : Option RCPayload
  Badge : Int
  Sound : String
  NotID : Int
  Apn : Option RCApn
  Gcm : Option RCGcm
  Topic : String
  UniqueID : String
  deriving Repr, DecidableEq

/-- The parsed request body (`RCPushNotification` in Go). -/
structure RCPushNotification where
  Token : String
  Options : RCOptions
  deriving Repr, DecidableEq

/-- The per-request state the dispatch logic manipulates: the retained raw
body (`nil` once the filter mutates the data), the parsed data, and the
marshalled inner payload (`ejson`, nil until set). This is the subset of
Go's `rcRequest` the dispatch logic reads and writes; the `http.Request`,
numeric id and stats pointer are passed separately. -/
structure rcRequest where
  body : Option String
  data : RCPushNotification
  ejson : Option String
  deriving Repr, DecidableEq

/-! JSON serialization: model of Go `encoding/json.Marshal` restricted to the
struct types above, following their field tags (field order is declaration
order, `omitempty` drops zero values, nil pointers are omitted). -/

/-- Escape a string for a JSON string literal (quote and backslash; the
claims only need that this is a function of the string). -/
def jsonEscape (s : String) : String :=
  s.foldl (fun acc c =>
    acc ++ (if c = '"' then "\\\"" else if c = '\\' then "\\\\" else String.singleton c)) ""

/-- Render a JSON string literal. -/
def jsonStr (s : String) : String := "\"" ++ jsonEscape s ++ "\""

/-- Render a JSON object from already-rendered field values. -/
def jsonObj (fields : List (String × String)) : String :=
  "\x7b" ++ String.intercalate "," (fields.map (fun kv => jsonStr kv.1 ++ ":" ++ kv.2)) ++ "\x7d"

/-- Render a JSON boolean. -/
def jsonBool (b : Bool) : String := if b then "true" else "false"

/-- Render a JSON integer. -/
def jsonInt (i : Int) : String := toString i

/-- Marshal the sender struct (all fields `omitempty`). -/
def jsonRCSender (sn : RCSender) : String :=
  jsonObj ((if sn.ID = "" then [] else [("_id", jsonStr sn.ID)])
    ++ (if sn.Username = "" then [] else [("username", jsonStr sn.Username)])
    ++ (if sn.Name = "" then [] else [("name", jsonStr sn.Name)]))

/-- Marshal `RCPayload` (tags: `rid`, `sender`, `senderName`, `type` are `omitempty`). -/
def jsonRCPayload (pl : RCPayload) : String :=
  jsonObj ([("host", jsonStr pl.Host), ("messageId", jsonStr pl.MessageID),
      ("notificationType", jsonStr pl.NotificationType)]
    ++ (if pl.Rid = "" then [] else [("rid", jsonStr pl.Rid)])
    ++ (match pl.Sender with | none => [] | some sn => [("sender", jsonRCSender sn)])
    ++ (if pl.SenderName = "" then [] else [("senderName", jsonStr pl.SenderName)])
    ++ (if pl.Type' = "" then [] else [("type", jsonStr pl.Type')]))

/-- Marshal the `Apn` sub-struct (both fields `omitempty`). -/
def jsonRCApn (a : RCApn) : String :=
  jsonObj ((if a.Category = "" then [] else [("category", jsonStr a.Category)])
    ++ (if a.Text = "" then [] else [("text", jsonStr a.Text)]))

/-- Marshal the `Gcm` sub-struct (both fields `omitempty`). -/
def jsonRCGcm (g : RCGcm) : String :=
  jsonObj ((if g.Image = "" then [] else [("image", jsonStr g.Image)])
    ++ (if g.Style = "" then [] else [("style", jsonStr g.Style)]))

/-- Marshal `Options` (tags: `payload`, `badge`, `notId`, `apn`, `gcm`,
`topic` are `omitempty`). -/
def jsonRCOptions (o : RCOptions) : String :=
  jsonObj ([("createdAt", jsonStr o.CreatedAt), ("createdBy", jsonStr o.CreatedBy),
      ("sent", jsonBool o.Sent), ("sending", jsonInt o.Sending),
      ("from", jsonStr o.From), ("title", jsonStr o.Title), ("text", jsonStr o.Text),
      ("userId", jsonStr o.UserID)]
    ++ (match o.Payload with | none => [] | some pl => [("payload", jsonRCPayload pl)])
    ++ (if o.Badge = 0 then [] else [("badge", jsonInt o.Badge)])
    ++ [("sound", jsonStr o.Sound)]
    ++ (if o.NotID = 0 then [] else [("notId", jsonInt o.NotID)])
    ++ (match o.Apn with | none => [] | some a => [("apn", jsonRCApn a)])
    ++ (match o.Gcm with | none => [] | some g => [("gcm", jsonRCGcm g)])
    ++ (if o.Topic = "" then [] else [("topic", jsonStr o.Topic)])
    ++ [("uniqueId", jsonStr o.UniqueID)])

/-- Marshal the whole `RCPushNotification` (the `json.Marshal(r.data)` used
when `forward` must rebuild a mutated body). -/
def jsonRCPushNotification (d : RCPushNotification) : String :=
  jsonObj [("token", jsonStr d.Token), ("options", jsonRCOptions d.Options)]

/-! The privacy filter and body processing of `withRCRequest`. -/

/-- The conditional redaction block of `withRCRequest` (the `if filter &&
r.data.Options.Payload.NotificationType == "message"` mutation): blank the
title, replace the text with the fixed placeholder, reduce the payload to
host / messageId / a forced `message-id-only` type, and clear the retained
raw body. Anything else (payload absent, or a `NotificationType` other than
`"message"`) is left untouched. -/
def privacyFilter (filter : Bool) (r : rcRequest) : rcRequest :=
  match r.data.Options.Payload with
  | none => r
  | some pl =>
    if filter && (pl.NotificationType == "message") then
      { r with
        data := { r.data with Options := { r.data.Options with
          Title := "",
          Text := "You have a new message",
          Payload := some { Host := pl.Host, MessageID := pl.MessageID,
                            NotificationType := "message-id-only", Rid := "",
                            Sender := none, SenderName := "", Type' := "" } } },
        body := none }
    else r

/-- The body-processing tail of `withRCRequest` after a successful parse
(source lines: the `if r.data.Options.Payload != nil` block): extract the
host, run the conditional redaction, and marshal the (possibly reduced)
payload into `ejson`. Returns the processed request together with the host
used for the stats key. -/
def withRCRequestBody (filter : Bool) (body : String) (data : RCPushNotification) :
    rcRequest × String :=
  let r0 : rcRequest := { body := some body, data := data, ejson := none }
  match data.Options.Payload with
  | none => (r0, "")
  | some pl =>
    let r1 := privacyFilter filter r0
    let r2 := match r1.data.Options.Payload with
      | some pl1 => { r1 with ejson := some (jsonRCPayload pl1) }
      | none => { r1 with ejson := some "null" }
    (r2, pl.Host)

/-! The per-destination stats entry and circuit breaker (`status` in Go). -/

/-- Model of the `atomic.Pointer[time.Time]` cell: `none` is the nil
pointer, `some (tag, t)` a pointer with identity `tag` to the instant `t`.
`CompareAndSwap` succeeds exactly when the stored value (pointer identity
included) is the one previously loaded. -/
abbrev TimePtr := Option (Nat × Nat)

/-- Cooldown after an upstream unprocessable-entity rejection (`disabledDelay
= time.Hour`, in nanoseconds). -/
def disabledDelay : Nat := 3600000000000

/-- Per-destination stats entry (`status` struct in Go): key fields, the
three counters, and the breaker timestamp. -/
structure status where
  id : String
  ip : String
  host : String
  fcm : Nat
  apn : Nat
  forwarded : Nat
  disabledUntil : TimePtr
  deriving Repr, DecidableEq

/-- Faithful model of `status.isDisabled` with the two atomic accesses made
explicit: `loaded` is the value the initial `Load` returns, `current` the
value the cell holds when `CompareAndSwap` executes (they differ only if a
concurrent caller mutated the cell in between). Result: the returned
boolean and the value the cell holds afterwards. The branch structure is
exactly the source's: nil pointer means enabled; a loaded expiry in the
future means disabled; an expired expiry is cleared by
`CompareAndSwap(t, nil)` and the call returns the negation of the swap's
success. -/
def isDisabledAt (loaded current : TimePtr) (now : Nat) : Bool × TimePtr :=
  match loaded with
  | none => (false, current)
  | some (tag, t) =>
    if now < t then (true, current)
    else if current = some (tag, t) then (false, none)
    else (true, current)

/-- Interference-free (sequential) run of `status.isDisabled`: the cell is
unchanged between the `Load` and the `CompareAndSwap`. -/
def isDisabled (p : TimePtr) (now : Nat) : Bool × TimePtr :=
  isDisabledAt p p now

/-- Model of `status.disable`: store a fresh pointer (identity `freshTag`)
to `now + disabledDelay`, unconditionally overwriting the cell. -/
def disable (freshTag now : Nat) : TimePtr :=
  some (freshTag, now + disabledDelay)

/-! The forwarder (`forward` in Go). -/

/-- Outcome of the single upstream attempt `http.DefaultClient.Do`: an HTTP
response (status and body) or a network-level error. -/
inductive UpstreamResult where
  | response (statusCode : Nat) (body : String)
  | netError
  deriving Repr, DecidableEq

/-- What a run of `forward` did: the status written to the caller, the
updated stats entry, whether the upstream network call was made, and the
body bytes handed to it (`none` when no call was made). -/
structure ForwardResult where
  wStatus : Nat
  stats : status
  networkCalled : Bool
  sentBody : Option String
  deriving Repr, DecidableEq

/-- Model of `forward`: bump the forwarded counter, short-circuit with 422
if the breaker is disabled (the `isDisabled` call may clear an expired
timestamp as a side effect), otherwise rebuild the body from the parsed
data when the raw body was cleared, make the upstream call, relay the
response status, and trip the breaker exactly on an upstream 422. A network
error yields a 500 without touching the breaker. `now` is the current time
for both the breaker check and a potential `disable`; `freshTag` is the
identity of the pointer a `disable` would allocate. -/
def forward (r : rcRequest) (s : status) (now freshTag : Nat) (up : UpstreamResult) :
    ForwardResult :=
  let s1 : status := { s with forwarded := s.forwarded + 1 }
  let gate := isDisabled s1.disabledUntil now
  if gate.1 then
    { wStatus := 422, stats := s1, networkCalled := false, sentBody := none }
  else
    let s2 : status := { s1 with disabledUntil := gate.2 }
    let body := match r.body with
      | some b => b
      | none => jsonRCPushNotification r.data
    match up with
    | .netError =>
      { wStatus := 500, stats := s2, networkCalled := true, sentBody := some body }
    | .response st _ =>
      let s3 : status :=
        if 300 ≤ st then
          (if st = 422 then { s2 with disabledUntil := disable freshTag now } else s2)
        else s2
      { wStatus := st, stats := s3, networkCalled := true, sentBody := some body }

/-! The direct-FCM handler (`getGCMPushNotificationHandler` in `fcm.go`). -/

/-- The `data` map the FCM handler builds (string keys in the source; a
record with one field per key here). -/
structure FCMData where
  ejson : String
  title : String
  message : String
  msgcnt : String
  sound : String
  notId : String
  image : String
  style : String
  deriving Repr, DecidableEq

/-- Construction of the FCM `data` map, exactly as in the source: the
`image`/`style` entries start empty and are overwritten from the `Gcm`
options when present. -/
def fcmData (r : rcRequest) : FCMData :=
  let opt := r.data.Options
  let d : FCMData := { ejson := r.ejson.getD "", title := opt.Title,
                       message := opt.Text, msgcnt := toString opt.Badge,
                       sound := opt.Sound, notId := toString opt.NotID,
                       image := "", style := "" }
  match opt.Gcm with
  | none => d
  | some g => { d with image := g.Image, style := g.Style }

/-- The `messaging.Message` the handler sends. -/
structure FCMMessage where
  Token : String
  CollapseKey : String
  Priority : String
  Data : FCMData
  deriving Repr, DecidableEq

/-- Error classification of `client.Send` as the handler distinguishes it:
`none` is success, otherwise unregistered token, sender-id mismatch, or any
other error. -/
inductive FCMSendError where
  | unregistered
  | senderIDMismatch
  | other
  deriving Repr, DecidableEq

/-- What a run of the FCM handler did. -/
structure GCMResult where
  wStatus : Nat
  stats : status
  providerMsg : Option FCMMessage
  forwardCalled : Bool
  deriving Repr, DecidableEq

/-- Model of the FCM request handler: bump the fcm counter, build the
message, always call `client.Send` (there is no topic test on this path),
then classify the error: unregistered token yields 406, a sender-id
mismatch falls back to `forward`, any other error yields 400, success
yields 200. `providerMsg` records the message handed to the provider
(always `some`, since `Send` is reached unconditionally). -/
def gcmHandler (r : rcRequest) (s : status) (sendErr : Option FCMSendError)
    (now freshTag : Nat) (up : UpstreamResult) : GCMResult :=
  let s1 : status := { s with fcm := s.fcm + 1 }
  let opt := r.data.Options
  let msg : FCMMessage := { Token := r.data.Token, CollapseKey := opt.From,
                            Priority := "high", Data := fcmData r }
  match sendErr with
  | some .unregistered =>
    { wStatus := 406, stats := s1, providerMsg := some msg, forwardCalled := false }
  | some .senderIDMismatch =>
    let f := forward r s1 now freshTag up
    { wStatus := f.wStatus, stats := f.stats, providerMsg := some msg, forwardCalled := true }
  | some .other =>
    { wStatus := 400, stats := s1, providerMsg := some msg, forwardCalled := false }
  | none =>
    { wStatus := 200, stats := s1, providerMsg := some msg, forwardCalled := false }

/-! The direct-APN handler (`getAPNPushNotificationHandler` in `apns.go`). -/

/-- The APNs alert payload the handler builds via the `payload` builder:
title, body, badge, sound, the `ejson` custom field, an optional category
and body override from the `Apn` options, and the mutable-content flag set
for `message-id-only` payloads. -/
structure APNPayload where
  alertTitle : String
  alertBody : String
  badge : Int
  sound : String
  ejson : String
  category : String
  mutableContent : Bool
  deriving Repr, DecidableEq

/-- Construction of the APNs payload, following the source's builder calls. -/
def apnPayload (r : rcRequest) : APNPayload :=
  let opt := r.data.Options
  let p : APNPayload := { alertTitle := opt.Title, alertBody := opt.Text,
                          badge := opt.Badge, sound := opt.Sound,
                          ejson := r.ejson.getD "", category := "",
                          mutableContent := false }
  let p := match opt.Apn with
    | none => p
    | some a =>
      let p1 := if a.Category ≠ "" then { p with category := a.Category } else p
      if a.Text ≠ "" then { p1 with alertBody := a.Text } else p1
  match opt.Payload with
  | some pl =>
    if pl.NotificationType = "message-id-only" then { p with mutableContent := true } else p
  | none => p

/-- Rejection reasons of `client.Push` the handler distinguishes. -/
inductive APNReason where
  | badDeviceToken
  | deviceTokenNotForTopic
  | unregistered
  | otherReason
  deriving Repr, DecidableEq

/-- Outcome of `client.Push`: a transport error (`err != nil`), a response
with `Sent()` false carrying a reason and the provider's status code, or a
sent notification. -/
inductive APNPushOutcome where
  | sent
  | pushError
  | notSent (reason : APNReason) (statusCode : Nat)
  deriving Repr, DecidableEq

/-- What a run of the APN handler did: `providerPayload` is the payload
handed to `client.Push` (`none` when no push was attempted), `forwardRes`
the result of `forward` when that path was taken. -/
structure APNResult where
  wStatus : Nat
  stats : status
  providerPayload : Option APNPayload
  forwardCalled : Bool
  forwardRes : Option ForwardResult
  deriving Repr, DecidableEq

/-- Model of the APN request handler: bump the apn counter; forward when the
topic is the reserved upstream sentinel; reject with 406 when the topic is
neither the sentinel nor the configured `apnsTopic` (no provider call, no
forward); otherwise build the payload and push, classifying the outcome:
transport error 500, invalid-token reasons 406, other rejection relays the
provider's status code, success 200. -/
def apnHandler (apnsTopic : String) (r : rcRequest) (s : status) (push : APNPushOutcome)
    (now freshTag : Nat) (up : UpstreamResult) : APNResult :=
  let s1 : status := { s with apn := s.apn + 1 }
  let opt := r.data.Options
  if opt.Topic = apnsUpstreamTopic then
    let f := forward r s1 now freshTag up
    { wStatus := f.wStatus, stats := f.stats, providerPayload := none,
      forwardCalled := true, forwardRes := some f }
  else if opt.Topic ≠ apnsTopic then
    { wStatus := 406, stats := s1, providerPayload := none,
      forwardCalled := false, forwardRes := none }
  else
    let p := apnPayload r
    match push with
    | .sent =>
      { wStatus := 200, stats := s1, providerPayload := some p,
        forwardCalled := false, forwardRes := none }
    | .pushError =>
      { wStatus := 500, stats := s1, providerPayload := some p,
        forwardCalled := false, forwardRes := none }
    | .notSent reason st =>
      if reason = .badDeviceToken ∨ reason = .deviceTokenNotForTopic ∨
          reason = .unregistered then
        { wStatus := 406, stats := s1, providerPayload := some p,
          forwardCalled := false, forwardRes := none }
      else
        { wStatus := st, stats := s1, providerPayload := some p,
          forwardCalled := false, forwardRes := none }

/-! Concurrent model of `getStats` (stats registry, `sync.Map`). Two callers
race on the same fresh key; each runs `Load` and then, on a miss,
`LoadOrStore` with its own freshly allocated entry. Only the one map slot
for that key is relevant, so a configuration is that slot plus each
caller's program counter. Entries are identified by their allocation
(pointer identity), modelled as a `Nat`. -/

/-- Program counter of one `getStats` caller: before the `Load`, after a
missing `Load` (about to `LoadOrStore`), or returned with an entry. -/
inductive GSPC where
  | start
  | missed
  | done (res : Nat)
  deriving Repr, DecidableEq

/-- Configuration of the race: the map slot for the contested key and the
two callers' program counters. -/
structure GSConfig where
  slot : Option Nat
  pc1 : GSPC
  pc2 : GSPC
  deriving Repr, DecidableEq

/-- One atomic step of a single caller holding candidate entry `cand`:
`Load` returns the slot (hit finishes the call, miss advances to the
`LoadOrStore`); `LoadOrStore` returns the existing entry on a hit and
inserts `cand` only when the slot is still empty. A finished caller does
nothing. -/
def gsStepOne (cand : Nat) (slot : Option Nat) (pc : GSPC) : Option Nat × GSPC :=
  match pc with
  | .start =>
    match slot with
    | some e => (slot, .done e)
    | none => (slot, .missed)
  | .missed =>
    match slot with
    | some e => (slot, .done e)
    | none => (some cand, .done cand)
  | .done r => (slot, .done r)

/-- Scheduler step: `true` steps caller 1 (candidate `c1`), `false` steps
caller 2 (candidate `c2`). -/
def gsStep (c1 c2 : Nat) (cfg : GSConfig) (who : Bool) : GSConfig :=
  if who then
    let sp := gsStepOne c1 cfg.slot cfg.pc1
    { cfg with slot := sp.1, pc1 := sp.2 }
  else
    let sp := gsStepOne c2 cfg.slot cfg.pc2
    { cfg with slot := sp.1, pc2 := sp.2 }

/-- Run a whole schedule (arbitrary interleaving) from a configuration. -/
def gsRun (c1 c2 : Nat) (sched : List Bool) (cfg : GSConfig) : GSConfig :=
  match sched with
  | [] => cfg
  | w :: ws => gsRun c1 c2 ws (gsStep c1 c2 cfg w)

/-- Initial configuration: the key is absent and neither caller has run. -/
def gsInit : GSConfig := { slot := none, pc1 := .start, pc2 := .start }

/-! Concrete example inputs used by witnesses and counterexamples. -/

/-- Example options with content-bearing alert text and no optional
sub-objects. -/
def exOptions : RCOptions :=
  { CreatedAt := "2024-01-01", CreatedBy := "rc", Sent := false, Sending := 0,
    From := "push", Title := "secret title", Text := "secret text",
    UserID := "u1", Payload := none, Badge := 0, Sound := "default",
    NotID := 0, Apn := none, Gcm := none, Topic := "", UniqueID := "site1" }

/-- Example payload of the ordinary content-bearing kind. -/
def exPayloadMessage : RCPayload :=
  { Host := "https://chat.example", MessageID := "m1",
    NotificationType := "message", Rid := "r1",
    Sender := some { ID := "s1", Username := "alice", Name := "Alice" },
    SenderName := "Alice", Type' := "d" }

/-- Example payload with a `NotificationType` that is neither `"message"`
nor `"message-id-only"`. -/
def exPayloadOther : RCPayload :=
  { exPayloadMessage with NotificationType := "pm" }

/-- Example payload already reduced to `message-id-only` form. -/
def exPayloadMIO : RCPayload :=
  { Host := "https://chat.example", MessageID := "m1",
    NotificationType := "message-id-only", Rid := "", Sender := none,
    SenderName := "", Type' := "" }

/-- Example stats entry with zero counters and an enabled breaker. -/
def exStats : status :=
  { id := "site1", ip := "10.0.0.1", host := "https://chat.example",
    fcm := 0, apn := 0, forwarded := 0, disabledUntil := none }

/-- Example request whose topic is the reserved upstream sentinel. -/
def exReqSentinel : rcRequest :=
  { body := some "rawbytes",
    data := { Token := "tok1",
              Options := { exOptions with Topic := apnsUpstreamTopic } },
    ejson := none }

/-- Example request whose topic matches neither the sentinel nor the
configured topic `"my.app.topic"`. -/
def exReqMisrouted : rcRequest :=
  { body := some "rawbytes",
    data := { Token := "tok1",
              Options := { exOptions with Topic := "other.topic" } },
    ejson := none }

/-- Example request with an already `message-id-only` payload. -/
def exReqMIO : rcRequest :=
  { body := some "rawbytes",
    data := { Token := "tok1",
              Options := { exOptions with Payload := some exPayloadMIO } },
    ejson := none }

/-! Claim C1. -/

/-- C1 counterexample. The claim asserts that a sentinel-topic request is
forwarded, and no push-provider adapter is called, regardless of whether
the direct-APN or the direct-FCM endpoint was invoked. On the direct-FCM
endpoint this fails: the FCM handler never inspects the topic; at this
concrete sentinel-topic request with a successful provider send it hands
the message to the provider (`providerMsg` is set) and performs no
forward. -/
theorem C1_counterexample :
    exReqSentinel.data.Options.Topic = apnsUpstreamTopic ∧
    (gcmHandler exReqSentinel exStats none 0 0 (.response 200 "")).forwardCalled = false ∧
    (gcmHandler exReqSentinel exStats none 0 0 (.response 200 "")).providerMsg.isSome = true ∧
    (gcmHandler exReqSentinel exStats none 0 0 (.response 200 "")).wStatus = 200 := by
  refine ⟨rfl, rfl, rfl, rfl⟩

/-- C1 (amended): a sentinel-topic request is forwarded without any
provider call on the direct-APN endpoint only. The direct-FCM handler
always hands the message to the FCM provider regardless of topic, and
forwards exactly when the provider reports a sender-id mismatch. -/
theorem C1_amended (t : String) (r : rcRequest) (s : status) (push : APNPushOutcome)
    (sendErr : Option FCMSendError) (now tag : Nat) (up : UpstreamResult)
    (h : r.data.Options.Topic = apnsUpstreamTopic) :
    ((apnHandler t r s push now tag up).forwardCalled = true ∧
      (apnHandler t r s push now tag up).providerPayload = none ∧
      (apnHandler t r s push now tag up).forwardRes =
        some (forward r { s with apn := s.apn + 1 } now tag up)) ∧
    ((gcmHandler r s sendErr now tag up).providerMsg.isSome = true ∧
      ((gcmHandler r s sendErr now tag up).forwardCalled = true ↔
        sendErr = some .senderIDMismatch)) := by
  constructor
  · simp only [apnHandler, h, if_pos rfl]
    exact ⟨rfl, rfl, rfl⟩
  · cases sendErr with
    | none => simp [gcmHandler]
    | some e => cases e <;> simp [gcmHandler]

/-- C1 amended, witnessed at the concrete sentinel-topic request. -/
theorem C1_amended_witness :
    (apnHandler "my.app.topic" exReqSentinel exStats .sent 0 0
        (.response 200 "ok")).forwardCalled = true ∧
    (gcmHandler exReqSentinel exStats (some .senderIDMismatch) 0 0
        (.response 200 "ok")).forwardCalled = true := by
  refine ⟨(C1_amended "my.app.topic" exReqSentinel exStats .sent
      (some .senderIDMismatch) 0 0 (.response 200 "ok") rfl).1.1, ?_⟩
  exact ((C1_amended "my.app.topic" exReqSentinel exStats .sent
      (some .senderIDMismatch) 0 0 (.response 200 "ok") rfl).2.2).mpr rfl

/-! Claim C8. -/

/-- C8 counterexample. The claim asserts that a direct-APN request whose
topic is neither the sentinel nor the configured topic yields a 4xx with no
provider call, no forward, and no state change. At this concrete misrouted
request everything holds except the frame condition: the handler increments
the per-key APN attempt counter before the topic checks, so the stats entry
does change. -/
theorem C8_counterexample :
    exReqMisrouted.data.Options.Topic ≠ apnsUpstreamTopic ∧
    exReqMisrouted.data.Options.Topic ≠ "my.app.topic" ∧
    (apnHandler "my.app.topic" exReqMisrouted exStats .sent 0 0
        (.response 200 "")).wStatus = 406 ∧
    (apnHandler "my.app.topic" exReqMisrouted exStats .sent 0 0
        (.response 200 "")).stats ≠ exStats := by
  refine ⟨by decide, by decide, rfl, by decide⟩

/-- C8 (amended): a direct-APN request whose topic is neither the sentinel
nor the configured topic yields exactly a 406 (a 4xx client error), no
provider call, no forward, and no state change beyond incrementing the
per-key APN attempt counter: the other counters and the breaker timestamp
are untouched. -/
theorem C8_amended (t : String) (r : rcRequest) (s : status) (push : APNPushOutcome)
    (now tag : Nat) (up : UpstreamResult)
    (h1 : r.data.Options.Topic ≠ apnsUpstreamTopic)
    (h2 : r.data.Options.Topic ≠ t) :
    apnHandler t r s push now tag up =
      { wStatus := 406, stats := { s with apn := s.apn + 1 },
        providerPayload := none, forwardCalled := false, forwardRes := none } ∧
    400 ≤ 406 ∧ 406 < 500 := by
  refine ⟨?_, by decide, by decide⟩
  simp [apnHandler, h1, h2]

/-- C8 amended, witnessed at the concrete misrouted request. -/
theorem C8_amended_witness :
    apnHandler "my.app.topic" exReqMisrouted exStats .sent 0 0 (.response 200 "") =
      { wStatus := 406, stats := { exStats with apn := exStats.apn + 1 },
        providerPayload := none, forwardCalled := false, forwardRes := none } :=
  (C8_amended "my.app.topic" exReqMisrouted exStats .sent 0 0 (.response 200 "")
    (by decide) (by decide)).1

/-! Claim C5. -/

/-- C5 counterexample. The claim asserts that a direct-FCM provider failure
other than sender mismatch and invalid token yields a server-error status.
At this concrete request the handler answers 400 (bad request), a client
error, not a 5xx. -/
theorem C5_counterexample :
    (gcmHandler exReqSentinel exStats (some .other) 0 0 (.response 200 "")).wStatus = 400 ∧
    ¬ (500 ≤ (gcmHandler exReqSentinel exStats (some .other) 0 0
        (.response 200 "")).wStatus ∧
       (gcmHandler exReqSentinel exStats (some .other) 0 0
        (.response 200 "")).wStatus < 600) := by
  refine ⟨rfl, by decide⟩

/-- C5 (amended): a direct-FCM request for which the provider reports a
permanently invalid (unregistered) token yields 406 and no forward; a
provider failure other than sender mismatch yields 400 (a client-error
status, not a 5xx); neither outcome changes the breaker state. -/
theorem C5_amended (r : rcRequest) (s : status) (now tag : Nat) (up : UpstreamResult) :
    (gcmHandler r s (some .unregistered) now tag up).wStatus = 406 ∧
    (gcmHandler r s (some .unregistered) now tag up).forwardCalled = false ∧
    (gcmHandler r s (some .unregistered) now tag up).stats.disabledUntil =
      s.disabledUntil ∧
    (gcmHandler r s (some .other) now tag up).wStatus = 400 ∧
    (gcmHandler r s (some .other) now tag up).forwardCalled = false ∧
    (gcmHandler r s (some .other) now tag up).stats.disabledUntil =
      s.disabledUntil := by
  refine ⟨rfl, rfl, rfl, rfl, rfl, rfl⟩

/-! Claim C2. -/

/-- Example parsed data whose payload type is neither `"message"` nor
`"message-id-only"`. -/
def exDataOther : RCPushNotification :=
  { Token := "tok1", Options := { exOptions with Payload := some exPayloadOther } }

/-- C2 counterexample. The claim asserts redaction for every filter-enabled
request whose notification is not already content-free (`NotificationType`
different from `"message-id-only"`). The code only redacts when the type is
exactly `"message"`: at this concrete request with type `"pm"` the title
survives, the payload keeps its sender, and the raw body is not cleared. -/
theorem C2_counterexample :
    exPayloadOther.NotificationType ≠ "message-id-only" ∧
    (withRCRequestBody true "rawbytes" exDataOther).1.data.Options.Title =
      "secret title" ∧
    "secret title" ≠ "" ∧
    (withRCRequestBody true "rawbytes" exDataOther).1.body = some "rawbytes" ∧
    (withRCRequestBody true "rawbytes" exDataOther).1.data.Options.Payload =
      some exPayloadOther := by
  refine ⟨by decide, rfl, by decide, rfl, rfl⟩

/-- C2 (amended): for every request to a filter-enabled endpoint whose
payload is present with `NotificationType` exactly `"message"` (the
content-bearing type; other types are passed through unfiltered), the
filter replaces the title with the empty string, the text with the fixed
placeholder, the inner payload with the reduced host / messageId /
`message-id-only` object dropping sender identity and raw type, and clears
the retained raw body. -/
theorem C2_amended (body : String) (data : RCPushNotification) (pl : RCPayload)
    (h1 : data.Options.Payload = some pl)
    (h2 : pl.NotificationType = "message") :
    (withRCRequestBody true body data).1.data.Options.Title = "" ∧
    (withRCRequestBody true body data).1.data.Options.Text =
      "You have a new message" ∧
    (withRCRequestBody true body data).1.data.Options.Payload =
      some { Host := pl.Host, MessageID := pl.MessageID,
             NotificationType := "message-id-only", Rid := "", Sender := none,
             SenderName := "", Type' := "" } ∧
    (withRCRequestBody true body data).1.body = none := by
  simp [withRCRequestBody, privacyFilter, h1, h2]

/-- C2 amended, witnessed at a concrete content-bearing request. -/
theorem C2_amended_witness :
    (withRCRequestBody true "rawbytes"
      { Token := "tok1",
        Options := { exOptions with Payload := some exPayloadMessage } }).1.body =
      none :=
  (C2_amended "rawbytes"
    { Token := "tok1", Options := { exOptions with Payload := some exPayloadMessage } }
    exPayloadMessage rfl rfl).2.2.2

/-! Claim C10. -/

/-- C10: a filter-enabled request whose parsed body has no `options.payload`
object undergoes no redaction at all: the processed request keeps the parsed
data verbatim (title and text intact), the raw body is retained, `ejson`
stays nil, the stats host is empty; and whenever a later `forward` of that
request reaches the network, the bytes sent upstream are exactly the
original raw bytes. -/
theorem C10_no_payload_no_redaction (body : String) (data : RCPushNotification)
    (s : status) (now tag : Nat) (up : UpstreamResult)
    (h : data.Options.Payload = none) :
    withRCRequestBody true body data =
      ({ body := some body, data := data, ejson := none }, "") ∧
    ((forward { body := some body, data := data, ejson := none }
        s now tag up).networkCalled = true →
      (forward { body := some body, data := data, ejson := none }
        s now tag up).sentBody = some body) := by
  constructor
  · simp [withRCRequestBody, h]
  · intro hnet
    unfold forward at hnet ⊢
    by_cases hg : (isDisabled s.disabledUntil now).1
    · simp [hg] at hnet
    · cases up with
      | netError => simp [hg]
      | response st b => simp [hg]

/-- C10, witnessed at a concrete payload-free request. -/
theorem C10_no_payload_no_redaction_witness :
    withRCRequestBody true "rawbytes" { Token := "tok1", Options := exOptions } =
      ({ body := some "rawbytes", data := { Token := "tok1", Options := exOptions },
         ejson := none }, "") ∧
    (forward { body := some "rawbytes",
               data := { Token := "tok1", Options := exOptions }, ejson := none }
       exStats 0 0 (.response 200 "ok")).sentBody = some "rawbytes" := by
  refine ⟨(C10_no_payload_no_redaction "rawbytes" _ exStats 0 0 (.response 200 "ok") rfl).1, ?_⟩
  exact (C10_no_payload_no_redaction "rawbytes" _ exStats 0 0 (.response 200 "ok") rfl).2 rfl

/-! Claim C7. -/

/-- C7: the privacy filter is idempotent — applying it twice equals applying
it once, for every request and filter mode; a request whose payload is
already `message-id-only` is left completely unchanged by the filter; and
whenever a forward of a request that still holds its raw body reaches the
network, the bytes sent upstream are exactly that raw body (no
re-serialization). -/
theorem C7_filter_idempotent :
    (∀ f r, privacyFilter f (privacyFilter f r) = privacyFilter f r) ∧
    (∀ r pl, r.data.Options.Payload = some pl →
      pl.NotificationType = "message-id-only" → privacyFilter true r = r) ∧
    (∀ r s now tag up b, r.body = some b →
      (forward r s now tag up).networkCalled = true →
      (forward r s now tag up).sentBody = some b) := by
  refine ⟨?_, ?_, ?_⟩
  · intro f r
    cases hp : r.data.Options.Payload with
    | none => simp [privacyFilter, hp]
    | some pl =>
      have hmio : ¬("message-id-only" = "message") := by decide
      by_cases hc : f = true ∧ pl.NotificationType = "message"
      · simp [privacyFilter, hp, hc, hmio]
      · simp [privacyFilter, hp, hc]
  · intro r pl hp hmio
    have hc : ((pl.NotificationType == "message") : Bool) = false := by
      simp [hmio]
    simp [privacyFilter, hp, hc]
  · intro r s now tag up b hb hnet
    unfold forward at hnet ⊢
    by_cases hg : (isDisabled s.disabledUntil now).1
    · simp [hg] at hnet
    · cases up with
      | netError => simp [hg, hb]
      | response st bd => simp [hg, hb]

/-- C7, witnessed at the concrete `message-id-only` request: the filter is
a no-op on it and the forwarder sends its original bytes. -/
theorem C7_filter_idempotent_witness :
    privacyFilter true (privacyFilter true exReqMIO) = privacyFilter true exReqMIO ∧
    privacyFilter true exReqMIO = exReqMIO ∧
    (forward exReqMIO exStats 0 0 (.response 200 "ok")).sentBody =
      some "rawbytes" := by
  refine ⟨C7_filter_idempotent.1 true exReqMIO,
    C7_filter_idempotent.2.1 exReqMIO exPayloadMIO rfl rfl,
    C7_filter_idempotent.2.2 exReqMIO exStats 0 0 (.response 200 "ok")
      "rawbytes" rfl rfl⟩

/-! Claim C3. -/

/-- Helper: a sequential `isDisabled` that answers "enabled" leaves the
cell nil — either it was nil already, or it held an expired pointer that
the compare-and-swap just cleared. -/
theorem isDisabled_false_clears (p : TimePtr) (now : Nat)
    (h : (isDisabled p now).1 = false) : (isDisabled p now).2 = none := by
  cases p with
  | none => rfl
  | some tt =>
    obtain ⟨tag, t⟩ := tt
    unfold isDisabled isDisabledAt at h ⊢
    by_cases hlt : now < t
    · simp [hlt] at h
    · simp [hlt]

/-- C3: for a forward whose breaker gate passes (so the upstream call is
attempted), an upstream response trips the breaker (stores the fresh
pointer to `now + disabledDelay`) exactly when its status is 422, any other
status is relayed to the caller with the breaker left enabled (nil after
the gate), and a network-level failure yields a 500 with the breaker
likewise untouched (still nil, as the gate left it). -/
theorem C3_forward_breaker (r : rcRequest) (s : status) (now tag : Nat)
    (up : UpstreamResult)
    (hgate : (isDisabled s.disabledUntil now).1 = false) :
    (∀ st b, up = .response st b →
      (forward r s now tag up).wStatus = st ∧
      (forward r s now tag up).networkCalled = true ∧
      ((forward r s now tag up).stats.disabledUntil = disable tag now ↔ st = 422) ∧
      (st ≠ 422 → (forward r s now tag up).stats.disabledUntil = none)) ∧
    (up = .netError →
      (forward r s now tag up).wStatus = 500 ∧
      (forward r s now tag up).networkCalled = true ∧
      (forward r s now tag up).stats.disabledUntil = none) := by
  have hclear := isDisabled_false_clears s.disabledUntil now hgate
  constructor
  · rintro st b rfl
    refine ⟨?_, ?_, ?_, ?_⟩ <;>
      by_cases h422 : st = 422 <;>
        simp [forward, hgate, hclear, h422, disable]
  · rintro rfl
    refine ⟨?_, ?_, ?_⟩ <;> simp [forward, hgate, hclear]

/-- C3, witnessed at a concrete enabled entry: a 422 response trips the
breaker, a 500 response does not, a network error yields 500. -/
theorem C3_forward_breaker_witness :
    (forward exReqSentinel exStats 7 3 (.response 422 "nope")).stats.disabledUntil =
      disable 3 7 ∧
    (forward exReqSentinel exStats 7 3 (.response 500 "err")).stats.disabledUntil =
      none ∧
    (forward exReqSentinel exStats 7 3 .netError).wStatus = 500 := by
  refine ⟨((C3_forward_breaker exReqSentinel exStats 7 3 (.response 422 "nope")
      rfl).1 422 "nope" rfl).2.2.1.mpr rfl, ?_, ?_⟩
  · exact ((C3_forward_breaker exReqSentinel exStats 7 3 (.response 500 "err")
      rfl).1 500 "err" rfl).2.2.2 (by decide)
  · exact ((C3_forward_breaker exReqSentinel exStats 7 3 .netError rfl).2 rfl).1

/-! Claim C4. -/

/-- C4 counterexample. The claim asserts that `isDisabled` returns true iff
`disabledUntil` is set and still in the future, and that a failed
compare-and-swap makes the effective state be re-read rather than the call
reporting disabled. Concretely: the loaded pointer holds the expired
instant 5 at time 10, but the cell was meanwhile cleared by a concurrent
caller (`current = none`), so the compare-and-swap fails — and the call
returns true (disabled) even though the timestamp is neither currently set
nor in the future; nothing is re-read. -/
theorem C4_counterexample :
    isDisabledAt (some (0, 5)) none 10 = (true, none) ∧ ¬ (10 < 5) := by decide

/-- C4 (amended): `isDisabled` returns true iff the loaded `disabledUntil`
is set and still in the future, or it is set and expired but the clearing
compare-and-swap fails because the cell changed concurrently — in that
failure case the call conservatively reports disabled (it does not
re-read). When the expired value is unchanged, the swap clears the cell and
the call reports enabled. In the interference-free run the result is true
exactly when the timestamp is set and in the future. -/
theorem C4_amended (tag t now : Nat) (current : TimePtr) :
    isDisabledAt none current now = (false, current) ∧
    (now < t → isDisabledAt (some (tag, t)) current now = (true, current)) ∧
    (t ≤ now → current = some (tag, t) →
      isDisabledAt (some (tag, t)) current now = (false, none)) ∧
    (t ≤ now → current ≠ some (tag, t) →
      isDisabledAt (some (tag, t)) current now = (true, current)) ∧
    ((isDisabled (some (tag, t)) now).1 = true ↔ now < t) := by
  refine ⟨rfl, ?_, ?_, ?_, ?_⟩
  · intro h
    simp [isDisabledAt, h]
  · intro h hc
    simp [isDisabledAt, Nat.not_lt.mpr h, hc]
  · intro h hc
    simp [isDisabledAt, Nat.not_lt.mpr h, hc]
  · unfold isDisabled isDisabledAt
    by_cases h : now < t
    · simp [h]
    · simp [h]

/-- C4 amended, witnessed at concrete instants: a future timestamp reports
disabled, an expired one with an unchanged cell is cleared, an expired one
whose cell changed reports disabled, and the sequential run of a future
timestamp is disabled. -/
theorem C4_amended_witness :
    isDisabledAt (some (1, 50)) (some (1, 50)) 10 = (true, some (1, 50)) ∧
    isDisabledAt (some (1, 50)) (some (1, 50)) 60 = (false, none) ∧
    isDisabledAt (some (1, 50)) (some (2, 70)) 60 = (true, some (2, 70)) ∧
    (isDisabled (some (1, 50)) 10).1 = true := by
  refine ⟨(C4_amended 1 50 10 (some (1, 50))).2.1 (by decide),
    (C4_amended 1 50 60 (some (1, 50))).2.2.1 (by decide) rfl,
    (C4_amended 1 50 60 (some (2, 70))).2.2.2.1 (by decide) (by decide),
    (C4_amended 1 50 10 (some (1, 50))).2.2.2.2.mpr (by decide)⟩

/-! Claim C6. -/

/-- C6: starting from an enabled entry, a forward that receives the
upstream 422 trips the breaker until `now + disabledDelay`; every
subsequent forward attempt for the same entry before that instant is
short-circuited with a 422 and no network call while still incrementing the
forwarded counter; and a forward attempt at or after that instant proceeds
to the network again. -/
theorem C6_cooldown (r1 r2 r3 : rcRequest) (s : status)
    (now t1 t2 tag tag2 tag3 : Nat) (b : String) (up2 up3 : UpstreamResult)
    (h0 : s.disabledUntil = none)
    (h1 : t1 < now + disabledDelay)
    (h2 : now + disabledDelay ≤ t2) :
    (forward r1 s now tag (.response 422 b)).stats.disabledUntil =
      some (tag, now + disabledDelay) ∧
    (forward r1 s now tag (.response 422 b)).wStatus = 422 ∧
    (forward r1 s now tag (.response 422 b)).networkCalled = true ∧
    (forward r2 (forward r1 s now tag (.response 422 b)).stats t1 tag2 up2).wStatus
      = 422 ∧
    (forward r2 (forward r1 s now tag (.response 422 b)).stats t1 tag2
      up2).networkCalled = false ∧
    (forward r2 (forward r1 s now tag (.response 422 b)).stats t1 tag2
      up2).stats.forwarded =
      (forward r1 s now tag (.response 422 b)).stats.forwarded + 1 ∧
    (forward r3 (forward r1 s now tag (.response 422 b)).stats t2 tag3
      up3).networkCalled = true := by
  have hout1 : (forward r1 s now tag (.response 422 b)).stats =
      { s with forwarded := s.forwarded + 1,
               disabledUntil := some (tag, now + disabledDelay) } := by
    simp [forward, isDisabled, isDisabledAt, h0, disable]
  have hg2 : (isDisabled (some (tag, now + disabledDelay)) t1).1 = true := by
    simp [isDisabled, isDisabledAt, h1]
  have hg3 : isDisabled (some (tag, now + disabledDelay)) t2 = (false, none) := by
    simp [isDisabled, isDisabledAt, Nat.not_lt.mpr h2]
  refine ⟨by rw [hout1], by simp [forward, isDisabled, isDisabledAt, h0],
    by simp [forward, isDisabled, isDisabledAt, h0], ?_, ?_, ?_, ?_⟩
  · rw [hout1]
    simp [forward, hg2]
  · rw [hout1]
    simp [forward, hg2]
  · rw [hout1]
    simp [forward, hg2]
  · rw [hout1]
    cases up3 with
    | netError => simp [forward, hg3]
    | response st bd => simp [forward, hg3]

/-- C6, witnessed at concrete times: trip at time 0, short-circuit at time
1, proceed again at time `disabledDelay`. -/
theorem C6_cooldown_witness :
    (forward exReqSentinel exStats 0 9 (.response 422 "no")).stats.disabledUntil =
      some (9, disabledDelay) ∧
    (forward exReqSentinel (forward exReqSentinel exStats 0 9
      (.response 422 "no")).stats 1 10 (.response 200 "ok")).networkCalled = false ∧
    (forward exReqSentinel (forward exReqSentinel exStats 0 9
      (.response 422 "no")).stats disabledDelay 11
      (.response 200 "ok")).networkCalled = true := by
  have h := C6_cooldown exReqSentinel exReqSentinel exReqSentinel exStats
    0 1 disabledDelay 9 10 11 "no" (.response 200 "ok") (.response 200 "ok")
    rfl (by simp [disabledDelay]) (by simp)
  exact ⟨by simpa using h.1, h.2.2.2.2.1, h.2.2.2.2.2.2⟩

/-! Claim C9. -/

/-- Invariant of the `getStats` race: a finished caller's result is exactly
the entry currently stored for the key, and whatever is stored is one of
the two candidate entries. Since `LoadOrStore` never overwrites an occupied
slot, the stored entry never changes once set. -/
def gsInv (c1 c2 : Nat) (cfg : GSConfig) : Prop :=
  (∀ e, cfg.pc1 = .done e → cfg.slot = some e) ∧
  (∀ e, cfg.pc2 = .done e → cfg.slot = some e) ∧
  (∀ e, cfg.slot = some e → e = c1 ∨ e = c2)

/-- Helper: `gsStepOne` never overwrites an occupied slot. -/
theorem gsStepOne_stable (cand : Nat) (slot : Option Nat) (pc : GSPC) (v : Nat)
    (h : slot = some v) : (gsStepOne cand slot pc).1 = some v := by
  cases pc <;> simp [gsStepOne, h]

/-- Helper: if the stepped caller just finished with entry `e`, then `e` is
stored in the slot afterwards (given it was consistent before). -/
theorem gsStepOne_self (cand : Nat) (slot : Option Nat) (pc : GSPC)
    (h : ∀ e, pc = .done e → slot = some e) :
    ∀ e, (gsStepOne cand slot pc).2 = .done e →
      (gsStepOne cand slot pc).1 = some e := by
  intro e he
  cases pc with
  | start =>
    cases slot with
    | none => simp [gsStepOne] at he
    | some v =>
      simp only [gsStepOne, GSPC.done.injEq] at he
      simp [gsStepOne, he]
  | missed =>
    cases slot with
    | none =>
      simp only [gsStepOne, GSPC.done.injEq] at he
      simp [gsStepOne, he]
    | some v =>
      simp only [gsStepOne, GSPC.done.injEq] at he
      simp [gsStepOne, he]
  | done r =>
    simp only [gsStepOne, GSPC.done.injEq] at he
    exact he ▸ h r rfl

/-- Helper: anything stored after a step was stored before, or is the
stepped caller's own candidate. -/
theorem gsStepOne_prov (cand : Nat) (slot : Option Nat) (pc : GSPC) (v : Nat)
    (h : (gsStepOne cand slot pc).1 = some v) : slot = some v ∨ v = cand := by
  cases pc with
  | start => cases slot <;> simp_all [gsStepOne]
  | missed =>
    cases slot with
    | none => simp only [gsStepOne, Option.some.injEq] at h; exact .inr h.symm
    | some w => simp_all [gsStepOne]
  | done r => cases slot <;> simp_all [gsStepOne]

/-- Helper: one scheduler step preserves the race invariant. -/
theorem gsStep_inv (c1 c2 : Nat) (cfg : GSConfig) (who : Bool)
    (h : gsInv c1 c2 cfg) : gsInv c1 c2 (gsStep c1 c2 cfg who) := by
  obtain ⟨h1, h2, h3⟩ := h
  cases who with
  | true =>
    refine ⟨?_, ?_, ?_⟩ <;> intro e he <;> simp only [gsStep, if_pos] at he ⊢
    · exact gsStepOne_self c1 cfg.slot cfg.pc1 h1 e he
    · exact gsStepOne_stable c1 cfg.slot cfg.pc1 e (h2 e he)
    · rcases gsStepOne_prov c1 cfg.slot cfg.pc1 e he with hs | rfl
      · exact h3 e hs
      · exact .inl rfl
  | false =>
    refine ⟨?_, ?_, ?_⟩ <;> intro e he <;>
      simp only [gsStep, Bool.false_eq_true, if_neg, if_false] at he ⊢
    · exact gsStepOne_stable c2 cfg.slot cfg.pc2 e (h1 e he)
    · exact gsStepOne_self c2 cfg.slot cfg.pc2 h2 e he
    · rcases gsStepOne_prov c2 cfg.slot cfg.pc2 e he with hs | rfl
      · exact h3 e hs
      · exact .inr rfl

/-- Helper: the race invariant holds after any schedule. -/
theorem gsRun_inv (c1 c2 : Nat) (sched : List Bool) (cfg : GSConfig)
    (h : gsInv c1 c2 cfg) : gsInv c1 c2 (gsRun c1 c2 sched cfg) := by
  induction sched generalizing cfg with
  | nil => exact h
  | cons w ws ih => exact ih _ (gsStep_inv c1 c2 cfg w h)

/-- C9: under every interleaving of two concurrent first-time `getStats`
calls for the same fresh key, whenever both callers have returned they hold
the same entry, that entry is the single one stored in the registry for the
key, and it is one of the two candidate entries — the `LoadOrStore`
insert-if-absent primitive never creates a duplicate. -/
theorem C9_getStats_unique (c1 c2 : Nat) (sched : List Bool) (e1 e2 : Nat)
    (h1 : (gsRun c1 c2 sched gsInit).pc1 = .done e1)
    (h2 : (gsRun c1 c2 sched gsInit).pc2 = .done e2) :
    e1 = e2 ∧ (gsRun c1 c2 sched gsInit).slot = some e1 ∧
      (e1 = c1 ∨ e1 = c2) := by
  have hinit : gsInv c1 c2 gsInit :=
    ⟨fun e he => by simp [gsInit] at he, fun e he => by simp [gsInit] at he,
     fun e he => by simp [gsInit] at he⟩
  obtain ⟨i1, i2, i3⟩ := gsRun_inv c1 c2 sched gsInit hinit
  have hs1 := i1 e1 h1
  have hs2 := i2 e2 h2
  have heq : e1 = e2 := by
    rw [hs1] at hs2
    exact Option.some_inj.mp hs2
  exact ⟨heq, hs1, i3 e1 hs1⟩

/-- C9, witnessed on the fully interleaved schedule (both callers miss on
`Load`, caller 1 inserts on `LoadOrStore`, caller 2's `LoadOrStore` returns
the existing entry): both end up with caller 1's entry. -/
theorem C9_getStats_unique_witness :
    (gsRun 10 20 [true, false, true, false] gsInit).pc1 = GSPC.done 10 ∧
    (gsRun 10 20 [true, false, true, false] gsInit).pc2 = GSPC.done 10 ∧
    (gsRun 10 20 [true, false, true, false] gsInit).slot = some 10 := by
  refine ⟨rfl, rfl, ?_⟩
  exact (C9_getStats_unique 10 20 [true, false, true, false] 10 10 rfl rfl).2.1

end RCPG
